import Mathlib

/-!
Shallow embedding of the devcampers-api request/response core:
the Error Normalizer (src/middleware/error.js), the bootcamp controllers
(src/unnamed/part_001), the course controllers (src/unnamed/part_000),
and the envelope contract they are specified to satisfy.

JavaScript objects that matter to the claims are modelled as Lean
structures; response bodies are modelled as a small JSON value type so
that key spellings ("success" versus the source's "sucess") are visible.
Machine-level numerics do not arise: statuses and sizes are Nat, the
geospatial arithmetic is over ℚ.
-/

/-- A JSON value, as written by `res.json(...)` in the source.
Object fields keep their source spelling and order. -/
inductive Json where
  | str (s : String)
  | num (n : Int)
  | bool (b : Bool)
  | obj (fields : List (String × Json))
  | arr (elems : List Json)
  | null

/-- Look a field up in a JSON object; `none` on non-objects or absent keys. -/
def Json.lookupField : Json → String → Option Json
  | .obj fields, k => (fields.find? (fun f => f.1 = k)).map Prod.snd
  | _, _ => none

/-- The keys of a JSON object (empty for non-objects). -/
def Json.keys : Json → List String
  | .obj fields => fields.map Prod.fst
  | _ => []

/-- An HTTP response as produced by `res.status(s).json(body)`. -/
structure Response where
  status : Nat
  body : Json

/-- Modelled from the spec: `utils/errorResponse.js` is not under `src/`.
Per the spec (§3), an Error Value carries a human message string and an
HTTP status code; controllers construct it with `new ErrorResponse(message,
statusCode)`.  `statusCode` is an `Option` because several call sites in
`src/unnamed/part_000` invoke the constructor with the message only (the
status is passed to `next` instead), leaving the field undefined. -/
structure ErrorResponse where
  message : String
  statusCode : Option Nat
deriving Repr, DecidableEq

/-- Modelled from the spec: construction of an Error Value from the list of
field-level validation messages (src/middleware/error.js line 24 passes the
mapped array to the constructor).  Per the spec (§4.1, §7) the message
becomes the concatenation of all field-level messages in one string; the
JavaScript `Error` super-constructor coerces an array with a comma
separator, so the concatenation is comma-joined. -/
def ErrorResponse.ofMessages (msgs : List String) (statusCode : Nat) : ErrorResponse :=
  ⟨String.intercalate "," msgs, some statusCode⟩

/-- The error object handed to the Error Normalizer: either a raw
storage-layer fault (carrying `name` / `code` / `errors` markers) or an
already-constructed Error Value (carrying `statusCode`).  `errors` holds
the `(field, value.message)` pairs that `Object.values(err.errors).map(v =>
v.message)` reads. -/
structure JsError where
  name : Option String
  code : Option Int
  message : String
  errors : List (String × String)
  statusCode : Option Nat
deriving Repr, DecidableEq

/-- src/middleware/error.js: `errorHandler`.  The three `if`s run in
sequence on the incoming `err`, each overwriting `error`; the response is
then written from the final `error` with JavaScript's falsy defaults
(`statusCode || 500`, `message || 'Server Error'`; the empty string is
falsy). -/
def errorHandler (err : JsError) : Response :=
  let error0 : ErrorResponse := ⟨err.message, err.statusCode⟩
  let error1 : ErrorResponse :=
    if err.name = some "CastError" then ⟨"Resource not found", some 404⟩ else error0
  let error2 : ErrorResponse :=
    if err.code = some 11000 then ⟨"Duplicate field value entered", some 404⟩ else error1
  let error3 : ErrorResponse :=
    if err.name = some "ValidationError" then
      ErrorResponse.ofMessages (err.errors.map Prod.snd) 400
    else error2
  { status := error3.statusCode.getD 500
    body := .obj [("success", .bool false),
                  ("error", .str (if error3.message = "" then "Server Error" else error3.message))] }

/-- The authenticated principal (`req.user`): identity and role. -/
structure Principal where
  id : String
  role : String
deriving Repr, DecidableEq

/-- The modelled fields of a stored Bootcamp document: its identifier, the
owning user's identifier (`user.toString()`), its geospatial point
(longitude, latitude as the source's `$centerSphere` uses them), and the
photo filename. -/
structure Bootcamp where
  bid : String
  user : String
  lng : ℚ
  lat : ℚ
  photo : String
deriving Repr, DecidableEq

/-- JSON rendering of a bootcamp document, for `data` payloads. -/
def bootcampJson (b : Bootcamp) : Json :=
  .obj [("_id", .str b.bid), ("user", .str b.user), ("photo", .str b.photo)]

/-- `Bootcamp.findById(id)`: the stored document with that identifier. -/
def findById (db : List Bootcamp) (id : String) : Option Bootcamp :=
  db.find? (fun b => b.bid = id)

/-- What a controller run does: write a response, call `next(err)` with an
Error Value, or throw an uncaught JavaScript exception (which the async
wrapper forwards to the Error Normalizer). -/
inductive Outcome where
  | ok (r : Response)
  | err (e : ErrorResponse)
  | thrown (msg : String)

/-- The HTTP status an outcome carries, when it determines one directly. -/
def Outcome.status? : Outcome → Option Nat
  | .ok r => some r.status
  | .err e => e.statusCode
  | .thrown _ => none

/-- Modelled from the spec: `middleware/async.js` is not under `src/`.  Per
the spec (§7), faults thrown inside a handler are caught centrally and
propagate to the Error Normalizer unchanged; a thrown `TypeError` reaches
it as a generic error with no `statusCode` and none of the storage-fault
markers. -/
def thrownToJsError (msg : String) : JsError :=
  ⟨some "TypeError", none, msg, [], none⟩

/-- src/unnamed/part_001 lines 17-27: `getBootcampById`.  Missing document
→ `next(new ErrorResponse(..., 404))`; otherwise a 200 response with a
correctly spelled `success` field. -/
def getBootcampById (db : List Bootcamp) (reqId : String) : Outcome :=
  match findById db reqId with
  | none => .err ⟨"Bootcamp not found with the id of " ++ reqId, some 404⟩
  | some bootcamp =>
      .ok ⟨200, .obj [("success", .bool true), ("data", bootcampJson bootcamp)]⟩

/-- src/unnamed/part_001 lines 32-49: `createBootcamp`.  `req.body.user` is
set to the principal's id; `Bootcamp.findOne({user: req.user.id})` is the
first stored bootcamp owned by the principal; a non-admin who already has
one is rejected with a 400 before `Bootcamp.create` runs.  The created
document is modelled by its fresh identifier `newId` plus the fields the
controller fixes; the response body spells the flag `sucess` as the source
does.  Returns the outcome together with the database after the call. -/
def createBootcamp (db : List Bootcamp) (user : Principal) (newId : String)
    (newLng newLat : ℚ) : Outcome × List Bootcamp :=
  let publishedBootcamp := db.find? (fun b => b.user = user.id)
  if publishedBootcamp.isSome ∧ user.role ≠ "admin" then
    (.err ⟨"The user with ID " ++ user.id ++ " has already published a bootcamp", some 400⟩, db)
  else
    let bootcamp : Bootcamp := ⟨newId, user.id, newLng, newLat, "no-photo.jpg"⟩
    (.ok ⟨201, .obj [("sucess", .bool true), ("data", bootcampJson bootcamp)]⟩, db ++ [bootcamp])

/-- src/unnamed/part_001 lines 54-73: `updateBootcamp`.  Missing document →
404; then the ownership check `bootcamp.user.toString() !== req.user.id &&
req.user.role !== 'admin'` → 401; otherwise `findByIdAndUpdate` applies the
request body (modelled as the field update `upd`) and the new document is
returned with a 200. -/
def updateBootcamp (db : List Bootcamp) (reqId : String) (user : Principal)
    (upd : Bootcamp → Bootcamp) : Outcome × List Bootcamp :=
  match findById db reqId with
  | none => (.err ⟨"Bootcamp not found with the id of " ++ reqId, some 404⟩, db)
  | some bootcamp =>
      if bootcamp.user ≠ user.id ∧ user.role ≠ "admin" then
        (.err ⟨"User " ++ reqId ++ " is not authorized to update this bootcamp", some 401⟩, db)
      else
        let updated := upd bootcamp
        (.ok ⟨200, .obj [("success", .bool true), ("data", bootcampJson updated)]⟩,
         db.map (fun b => if b.bid = reqId then upd b else b))

/-- src/unnamed/part_001 lines 78-94: `deleteBootcamp`.  Missing document →
404; then the source's ownership check compares the owner against the
string literal `'req.user.id'` (line 85: `bootcamp.user.toString() !==
'req.user.id'`), not against the principal's id; on passing,
`bootcamp.remove()` deletes the document. -/
def deleteBootcamp (db : List Bootcamp) (reqId : String) (user : Principal) :
    Outcome × List Bootcamp :=
  match findById db reqId with
  | none => (.err ⟨"Bootcamp not found with the id of " ++ reqId, some 404⟩, db)
  | some bootcamp =>
      if bootcamp.user ≠ "req.user.id" ∧ user.role ≠ "admin" then
        (.err ⟨"User " ++ reqId ++ " is not authorized to delete this bootcamp", some 401⟩, db)
      else
        (.ok ⟨200, .obj [("success", .bool true), ("data", .obj [])]⟩,
         db.eraseP (fun b => b.bid = reqId))

/-- A geocoder hit: the latitude/longitude the external geocoding
collaborator returns for a postal code. -/
structure GeoLoc where
  latitude : ℚ
  longitude : ℚ

/-- src/unnamed/part_001 lines 99-128: `getBootcampsInRadius`.  The postal
code is resolved through the geocoder; `loc[0]` on an empty result throws.
The angular radius is `distance / 6963` (the source's Earth-radius constant
in miles); the `$geoWithin`/`$centerSphere` query is the storage layer's
containment test, modelled by the predicate `within center radius point`
supplied for the spherical cap. -/
def getBootcampsInRadius (db : List Bootcamp)
    (geocode : String → List GeoLoc)
    (within : ℚ × ℚ → ℚ → ℚ × ℚ → Bool)
    (zipcode : String) (distance : ℚ) : Outcome :=
  match geocode zipcode with
  | [] => .thrown "TypeError: Cannot read properties of undefined (reading 'latitude')"
  | loc0 :: _ =>
      let lat := loc0.latitude
      let lng := loc0.longitude
      let earthRadius : ℚ := 6963
      let radius := distance / earthRadius
      let bootcamps := db.filter (fun b => within (lng, lat) radius (b.lng, b.lat))
      .ok ⟨200, .obj [("success", .bool true),
                      ("count", .num bootcamps.length),
                      ("data", .arr (bootcamps.map bootcampJson))]⟩

/-- The uploaded file (`req.files.file`): original name, declared media
type, and size in bytes. -/
structure UploadedFile where
  name : String
  mimetype : String
  size : Nat
deriving Repr, DecidableEq

/-- Model of Node's `path.parse(name).ext`: the suffix from the last dot,
empty when there is no dot or the only dot leads the name. -/
def extOf (name : String) : String :=
  let afterDot := name.toList.reverse.takeWhile (fun c => c ≠ '.')
  if afterDot.length = name.toList.length then ""
  else if name.toList.length = afterDot.length + 1 ∧ name.take 1 = "." then ""
  else "." ++ String.mk afterDot.reverse

/-- Model of JavaScript's `String.prototype.startsWith`: the candidate
prefix's characters lead the string's characters. -/
def jsStartsWith (s pre : String) : Bool :=
  pre.toList.isPrefixOf s.toList

/-- src/unnamed/part_001 lines 133-165: `bootcampPhotoUpload`.  Checks in
source order: the bootcamp exists (404), a file is attached (400, `!req.files`),
the declared media type starts with `image` (400), the size is within
`MAX_FILE_UPLOAD` (400).  Then the file is renamed to
`photo_<id><ext>` and `file.mv` persists it; an `mv` failure (modelled by
`mvErr`) yields a 500 with nothing recorded, otherwise the filename is
recorded on the document and returned with a 200 (flag key spelled
`sucess`).  The third component lists the filenames written to storage. -/
def bootcampPhotoUpload (db : List Bootcamp) (reqId : String)
    (files : Option UploadedFile) (maxFileUpload : Nat) (mvErr : Option String) :
    Outcome × List Bootcamp × List String :=
  match findById db reqId with
  | none => (.err ⟨"Bootcamp not found with the id of " ++ reqId, some 404⟩, db, [])
  | some bootcamp =>
      match files with
      | none => (.err ⟨"Please upload a file", some 400⟩, db, [])
      | some file =>
          if ¬ jsStartsWith file.mimetype "image" then
            (.err ⟨"Please upload an image file.", some 400⟩, db, [])
          else if file.size > maxFileUpload then
            (.err ⟨"Please upload an image less than " ++ toString maxFileUpload, some 400⟩, db, [])
          else
            let newName := "photo_" ++ bootcamp.bid ++ extOf file.name
            match mvErr with
            | some _ => (.err ⟨"Problem with file upload", some 500⟩, db, [])
            | none =>
                (.ok ⟨200, .obj [("sucess", .bool true), ("data", .str newName)]⟩,
                 db.map (fun b => if b.bid = reqId then { b with photo := newName } else b),
                 [newName])

/-- The modelled fields of a stored Course document: its identifier and the
identifier of the bootcamp it belongs to. -/
structure Course where
  cid : String
  bootcamp : String
deriving Repr, DecidableEq

/-- JSON rendering of a course document, for `data` payloads. -/
def courseJson (c : Course) : Json :=
  .obj [("_id", .str c.cid), ("bootcamp", .str c.bootcamp)]

/-- `Course.findById(id)`: the stored course with that identifier. -/
def courseFindById (db : List Course) (id : String) : Option Course :=
  db.find? (fun c => c.cid = id)

/-- src/unnamed/part_000 lines 27-39: `getCourse`.  The source reads
`await (await Course.findById(id)).populate({...})`: when `findById`
resolves to `null`, the `.populate` call throws a `TypeError` before the
`if (!course)` guard can run, so that guard — which itself passes the 404
to `next` as a second argument instead of to the `errorResponse`
constructor — is dead code.  On success the flag key is spelled `sucess`. -/
def getCourse (db : List Course) (reqId : String) : Outcome :=
  match courseFindById db reqId with
  | none => .thrown "TypeError: Cannot read properties of null (reading 'populate')"
  | some course =>
      .ok ⟨200, .obj [("sucess", .bool true), ("data", courseJson course)]⟩

/-- src/unnamed/part_000 lines 44-57: `addCourse`.  `req.body.bootcamp` is
set to the path's bootcamp id; a missing parent bootcamp is reported with
`next(new errorResponse(msg), 404)` — the 404 is an argument to `next`,
not to the constructor, so the Error Value carries no status code.  On
success `Course.create` runs and the response status is 200 (not 201),
with the flag key spelled `sucess`. -/
def addCourse (bootcamps : List Bootcamp) (courses : List Course)
    (bootcampId : String) (newId : String) : Outcome × List Course :=
  match findById bootcamps bootcampId with
  | none => (.err ⟨"No bootcamp with the id: " ++ bootcampId, none⟩, courses)
  | some _ =>
      let course : Course := ⟨newId, bootcampId⟩
      (.ok ⟨200, .obj [("sucess", .bool true), ("data", courseJson course)]⟩,
       courses ++ [course])

/-- Written from the spec's words (§3), for comparison with the bodies the
source writes: the Success Envelope shape
`\x7bsuccess: true, data: T, count?: integer\x7d` — a single JSON object
whose `success` field is `true`, with a `data` field, whose only keys are
`success`, `data` and the optional integer `count`. -/
def isSuccessEnvelope (j : Json) : Bool :=
  match j with
  | .obj fields =>
      (match j.lookupField "success" with | some (.bool true) => true | _ => false) &&
      (j.lookupField "data").isSome &&
      fields.all (fun f => f.1 == "success" || f.1 == "data" || f.1 == "count") &&
      (match j.lookupField "count" with | some (.num _) => true | none => true | _ => false)
  | _ => false

/-- Written from the spec's words (§3): the Failure Envelope shape
`\x7bsuccess: false, error: string\x7d`. -/
def isFailureEnvelope (j : Json) : Bool :=
  match j with
  | .obj fields =>
      (match j.lookupField "success" with | some (.bool false) => true | _ => false) &&
      (match j.lookupField "error" with | some (.str _) => true | _ => false) &&
      fields.all (fun f => f.1 == "success" || f.1 == "error")
  | _ => false

/-- Written from the spec's words (§3): a body is well-formed when it
matches one of the two envelope shapes. -/
def isEnvelope (j : Json) : Bool :=
  isSuccessEnvelope j || isFailureEnvelope j

/-- C8: every error classified as a malformed-identifier fault (a mongoose
`CastError`, which is not simultaneously a duplicate-key fault) is turned
by the Error Normalizer into the Error Value with message "Resource not
found" and statusCode 404, so the response is a 404 Failure Envelope. -/
theorem c8_cast_error_resource_not_found_404 (err : JsError)
    (hname : err.name = some "CastError") (hcode : err.code ≠ some 11000) :
    errorHandler err =
      ⟨404, .obj [("success", .bool false), ("error", .str "Resource not found")]⟩ := by
  simp [errorHandler, hname, hcode]

/-- C8 witness: a concrete CastError is normalized to the 404 response. -/
theorem c8_cast_error_resource_not_found_404_witness :
    errorHandler ⟨some "CastError", none, "Cast to ObjectId failed", [], none⟩ =
      ⟨404, .obj [("success", .bool false), ("error", .str "Resource not found")]⟩ :=
  c8_cast_error_resource_not_found_404
    ⟨some "CastError", none, "Cast to ObjectId failed", [], none⟩ rfl (by simp)

/-- C2 counterexample: on a duplicate-key fault (code 11000) the Error
Normalizer produces statusCode 404, not the claimed 409. -/
theorem c2_duplicate_key_409_counterexample :
    (errorHandler ⟨none, some 11000, "E11000 duplicate key error", [], none⟩).status = 404 ∧
    (404 : Nat) ≠ 409 := ⟨rfl, by decide⟩

/-- C2 amended: every duplicate-key fault (code 11000, not simultaneously a
validation fault) is normalized to the Error Value with message "Duplicate
field value entered" and statusCode 404 — a 4xx status, never 5xx. -/
theorem c2_duplicate_key_404_4xx (err : JsError)
    (hcode : err.code = some 11000) (hname : err.name ≠ some "ValidationError") :
    errorHandler err =
      ⟨404, .obj [("success", .bool false), ("error", .str "Duplicate field value entered")]⟩ ∧
    400 ≤ (errorHandler err).status ∧ (errorHandler err).status < 500 := by
  have h : errorHandler err =
      ⟨404, .obj [("success", .bool false), ("error", .str "Duplicate field value entered")]⟩ := by
    simp [errorHandler, hcode, hname]
  exact ⟨h, by rw [h]; decide, by rw [h]; decide⟩

/-- C2 witness: a concrete duplicate-key fault yields the 404 conflict
response with a 4xx status. -/
theorem c2_duplicate_key_404_4xx_witness :
    errorHandler ⟨none, some 11000, "E11000 duplicate key error collection", [], none⟩ =
      ⟨404, .obj [("success", .bool false), ("error", .str "Duplicate field value entered")]⟩ ∧
    400 ≤ (errorHandler ⟨none, some 11000, "E11000 duplicate key error collection", [], none⟩).status ∧
    (errorHandler ⟨none, some 11000, "E11000 duplicate key error collection", [], none⟩).status < 500 :=
  c2_duplicate_key_404_4xx
    ⟨none, some 11000, "E11000 duplicate key error collection", [], none⟩ rfl (by simp)

/-- C5: every schema-validation fault is normalized to an Error Value whose
message is the single string concatenating all field-level validation
messages (comma-joined, as the array coerces), with statusCode 400, and the
Failure Envelope carries that single string in its error field.  The
nonemptiness hypothesis rules out the vacuous errors object, whose empty
concatenation would fall back to "Server Error". -/
theorem c5_validation_concatenated_400 (err : JsError)
    (hname : err.name = some "ValidationError")
    (hmsg : String.intercalate "," (err.errors.map Prod.snd) ≠ "") :
    errorHandler err =
      ⟨400, .obj [("success", .bool false),
                  ("error", .str (String.intercalate "," (err.errors.map Prod.snd)))]⟩ := by
  simp [errorHandler, ErrorResponse.ofMessages, hname, hmsg]

/-- C5 witness: two concrete field-level messages are joined into one
string in the 400 response. -/
theorem c5_validation_concatenated_400_witness :
    errorHandler ⟨some "ValidationError", none, "Bootcamp validation failed",
        [("name", "Please add a name"), ("address", "Please add an address")], none⟩ =
      ⟨400, .obj [("success", .bool false),
                  ("error", .str "Please add a name,Please add an address")]⟩ :=
  (c5_validation_concatenated_400
    ⟨some "ValidationError", none, "Bootcamp validation failed",
        [("name", "Please add a name"), ("address", "Please add an address")], none⟩
    rfl (by decide)).trans rfl

/-- C1 failing input: bootcamp "b1" is owned by user "u1"; the owner (role
"publisher") issues the delete.  Because src/unnamed/part_001 line 85
compares the owner field against the string literal `'req.user.id'` rather
than the principal's id, the owner is rejected with a 401 and the document
is not removed — while the same principal's update on the same bootcamp
passes the ownership check and proceeds to the mutation, as the claim
describes. -/
theorem c1_delete_owner_rejected_literal_compare :
    deleteBootcamp [⟨"b1", "u1", 0, 0, "no-photo.jpg"⟩] "b1" ⟨"u1", "publisher"⟩ =
      (.err ⟨"User b1 is not authorized to delete this bootcamp", some 401⟩,
       [⟨"b1", "u1", 0, 0, "no-photo.jpg"⟩]) ∧
    updateBootcamp [⟨"b1", "u1", 0, 0, "no-photo.jpg"⟩] "b1" ⟨"u1", "publisher"⟩ id =
      (.ok ⟨200, .obj [("success", .bool true),
                       ("data", bootcampJson ⟨"b1", "u1", 0, 0, "no-photo.jpg"⟩)]⟩,
       [⟨"b1", "u1", 0, 0, "no-photo.jpg"⟩]) := ⟨rfl, rfl⟩

/-- C3 failing input: a well-formed course id matching no stored course.
`getCourse` calls `.populate` on the null result of `findById` and throws a
TypeError before its 404 guard can run; forwarded to the Error Normalizer,
that generic fault is answered with status 500, not the claimed 404. -/
theorem c3_missing_course_throws_then_500 :
    getCourse [] "64a1f0aa0000000000000001" =
      .thrown "TypeError: Cannot read properties of null (reading 'populate')" ∧
    (errorHandler (thrownToJsError
        "TypeError: Cannot read properties of null (reading 'populate')")).status = 500 ∧
    (500 : Nat) ≠ 404 := ⟨rfl, rfl, by decide⟩

/-- C4 failing input: fetching an existing course.  The handler writes its
body with the flag key spelled "sucess", so the body carries no `success`
field and matches neither envelope shape from the spec. -/
theorem c4_getCourse_body_not_envelope :
    getCourse [⟨"c1", "b1"⟩] "c1" =
      .ok ⟨200, .obj [("sucess", .bool true), ("data", courseJson ⟨"c1", "b1"⟩)]⟩ ∧
    isEnvelope (.obj [("sucess", .bool true), ("data", courseJson ⟨"c1", "b1"⟩)]) = false ∧
    (Json.obj [("sucess", .bool true),
               ("data", courseJson ⟨"c1", "b1"⟩)]).lookupField "success" = none :=
  ⟨rfl, by decide, rfl⟩

/-- C6 counterexample: a successful course creation (parent bootcamp "b1"
present) responds with status 200, not the claimed 201. -/
theorem c6_addCourse_200_counterexample :
    (addCourse [⟨"b1", "u1", 0, 0, "p"⟩] [] "b1" "c1").1.status? = some 200 ∧
    (200 : Nat) ≠ 201 := ⟨rfl, by decide⟩

/-- C6 amended: a successful bootcamp creation responds with status 201 and
a successful course creation with status 200, each carrying the created
entity in the `data` field of the body (whose flag key the source spells
"sucess"). -/
theorem c6_create_statuses (db : List Bootcamp) (courses : List Course)
    (user : Principal) (newId : String) (lng lat : ℚ) (bootcampId cid : String)
    (hfree : (db.find? (fun b => b.user = user.id)).isSome = false ∨ user.role = "admin")
    (hparent : (findById db bootcampId).isSome) :
    (∃ r, (createBootcamp db user newId lng lat).1 = .ok r ∧ r.status = 201 ∧
      r.body.lookupField "data" =
        some (bootcampJson ⟨newId, user.id, lng, lat, "no-photo.jpg"⟩)) ∧
    (∃ r, (addCourse db courses bootcampId cid).1 = .ok r ∧ r.status = 200 ∧
      r.body.lookupField "data" = some (courseJson ⟨cid, bootcampId⟩)) := by
  obtain ⟨b, hb⟩ := Option.isSome_iff_exists.mp hparent
  constructor
  · have hcond : ¬((db.find? (fun b => b.user = user.id)).isSome = true ∧
        user.role ≠ "admin") := by
      rcases hfree with h | h
      · exact fun hc => by rw [h] at hc; exact absurd hc.1 (by simp)
      · exact fun hc => hc.2 h
    refine ⟨⟨201, .obj [("sucess", .bool true),
        ("data", bootcampJson ⟨newId, user.id, lng, lat, "no-photo.jpg"⟩)]⟩, ?_, rfl, rfl⟩
    simp only [createBootcamp, if_neg hcond]
  · refine ⟨⟨200, .obj [("sucess", .bool true),
        ("data", courseJson ⟨cid, bootcampId⟩)]⟩, ?_, rfl, rfl⟩
    simp only [addCourse, hb]

/-- C6 witness: with bootcamp "b1" owned by "owner1" stored, the principal
"u2" (role publisher, owning nothing) creates a bootcamp (201) and a course
under "b1" (200). -/
theorem c6_create_statuses_witness :
    (∃ r, (createBootcamp [⟨"b1", "owner1", 0, 0, "p"⟩] ⟨"u2", "publisher"⟩ "b2" 0 0).1 =
        .ok r ∧ r.status = 201 ∧
      r.body.lookupField "data" =
        some (bootcampJson ⟨"b2", "u2", 0, 0, "no-photo.jpg"⟩)) ∧
    (∃ r, (addCourse [⟨"b1", "owner1", 0, 0, "p"⟩] [] "b1" "c1").1 = .ok r ∧ r.status = 200 ∧
      r.body.lookupField "data" = some (courseJson ⟨"c1", "b1"⟩)) :=
  c6_create_statuses [⟨"b1", "owner1", 0, 0, "p"⟩] [] ⟨"u2", "publisher"⟩ "b2" 0 0 "b1" "c1"
    (Or.inl (by decide)) (by decide)

/-- C10: a bootcamp-creation request by a principal who is not an admin and
already owns a stored bootcamp is rejected with the 400 Error Value naming
the user, and the database is returned unchanged — the create is not
attempted, so a non-admin can own at most one bootcamp. -/
theorem c10_single_bootcamp_guard (db : List Bootcamp) (user : Principal)
    (newId : String) (lng lat : ℚ)
    (howns : (db.find? (fun b => b.user = user.id)).isSome = true)
    (hrole : user.role ≠ "admin") :
    createBootcamp db user newId lng lat =
      (.err ⟨"The user with ID " ++ user.id ++ " has already published a bootcamp", some 400⟩,
       db) := by
  simp only [createBootcamp, if_pos (And.intro howns hrole)]

/-- C10 witness: publisher "u1", already owning bootcamp "b1", is rejected
with the 400 and the stored data is unchanged. -/
theorem c10_single_bootcamp_guard_witness :
    createBootcamp [⟨"b1", "u1", 0, 0, "p"⟩] ⟨"u1", "publisher"⟩ "b2" 0 0 =
      (.err ⟨"The user with ID u1 has already published a bootcamp", some 400⟩,
       [⟨"b1", "u1", 0, 0, "p"⟩]) :=
  (c10_single_bootcamp_guard [⟨"b1", "u1", 0, 0, "p"⟩] ⟨"u1", "publisher"⟩ "b2" 0 0
    (by decide) (by decide)).trans rfl

/-- C7 counterexample: with no bootcamp stored under "b1", the upload of a
valid image fails the first check — and that check short-circuits with a
404 Error Value, not the claimed 400. -/
theorem c7_missing_bootcamp_404_counterexample :
    (bootcampPhotoUpload [] "b1" (some ⟨"a.png", "image/png", 100⟩) 1000000 none).1 =
      .err ⟨"Bootcamp not found with the id of b1", some 404⟩ ∧
    (404 : Nat) ≠ 400 := ⟨rfl, by decide⟩

/-- C7 amended: the upload controller checks, in order, that the bootcamp
exists (short-circuiting with a 404 Error Value), that a file is attached,
that the declared media type is an image class, and that the size is within
the maximum (each of the latter three short-circuiting with a 400); in
particular a missing bootcamp wins over a non-image file with the 404, the
media-type check wins over the size check, and a non-image file yields 400
"Please upload an image file." with the database unchanged and nothing
written to storage. -/
theorem c7_upload_checks_in_order
    (db1 db2 : List Bootcamp) (b : Bootcamp) (reqId : String)
    (nonimg big : UploadedFile) (maxUp : Nat) (mvErr : Option String)
    (h1 : findById db1 reqId = none) (h2 : findById db2 reqId = some b)
    (hni : jsStartsWith nonimg.mimetype "image" = false)
    (hbigimg : jsStartsWith big.mimetype "image" = true) (hbig : maxUp < big.size) :
    bootcampPhotoUpload db1 reqId (some nonimg) maxUp mvErr =
      (.err ⟨"Bootcamp not found with the id of " ++ reqId, some 404⟩, db1, []) ∧
    bootcampPhotoUpload db2 reqId none maxUp mvErr =
      (.err ⟨"Please upload a file", some 400⟩, db2, []) ∧
    bootcampPhotoUpload db2 reqId (some nonimg) maxUp mvErr =
      (.err ⟨"Please upload an image file.", some 400⟩, db2, []) ∧
    bootcampPhotoUpload db2 reqId (some big) maxUp mvErr =
      (.err ⟨"Please upload an image less than " ++ toString maxUp, some 400⟩, db2, []) := by
  refine ⟨?_, ?_, ?_, ?_⟩
  · simp [bootcampPhotoUpload, h1]
  · simp [bootcampPhotoUpload, h2]
  · simp [bootcampPhotoUpload, h2, hni]
  · simp [bootcampPhotoUpload, h2, hbigimg, hbig]

/-- C7 witness: bootcamp "b1" stored, a 2000-byte PDF and a 2000-byte PNG
against a 1000-byte maximum exercise all four first-failure cases. -/
theorem c7_upload_checks_in_order_witness :
    bootcampPhotoUpload [] "b1" (some ⟨"a.pdf", "application/pdf", 2000⟩) 1000 none =
      (.err ⟨"Bootcamp not found with the id of b1", some 404⟩, [], []) ∧
    bootcampPhotoUpload [⟨"b1", "u1", 0, 0, "p"⟩] "b1" none 1000 none =
      (.err ⟨"Please upload a file", some 400⟩, [⟨"b1", "u1", 0, 0, "p"⟩], []) ∧
    bootcampPhotoUpload [⟨"b1", "u1", 0, 0, "p"⟩] "b1"
        (some ⟨"a.pdf", "application/pdf", 2000⟩) 1000 none =
      (.err ⟨"Please upload an image file.", some 400⟩, [⟨"b1", "u1", 0, 0, "p"⟩], []) ∧
    bootcampPhotoUpload [⟨"b1", "u1", 0, 0, "p"⟩] "b1"
        (some ⟨"a.png", "image/png", 2000⟩) 1000 none =
      (.err ⟨"Please upload an image less than 1000", some 400⟩, [⟨"b1", "u1", 0, 0, "p"⟩], []) :=
  c7_upload_checks_in_order [] [⟨"b1", "u1", 0, 0, "p"⟩] ⟨"b1", "u1", 0, 0, "p"⟩ "b1"
    ⟨"a.pdf", "application/pdf", 2000⟩ ⟨"a.png", "image/png", 2000⟩ 1000 none
    rfl (by decide) (by decide) (by decide) (by decide)

/-- C9: the radius search resolves the postal code through the geocoder
(taking the first hit), divides the given distance by the Earth-radius
constant 6963 to get the angular radius, filters the stored bootcamps by
the storage layer's spherical-cap containment test at that center and
radius, and answers 200 with a body whose count is exactly the length of
the returned data list. -/
theorem c9_radius_search (db : List Bootcamp) (geocode : String → List GeoLoc)
    (within : ℚ × ℚ → ℚ → ℚ × ℚ → Bool) (zipcode : String) (distance : ℚ)
    (loc : GeoLoc) (rest : List GeoLoc) (hgeo : geocode zipcode = loc :: rest) :
    getBootcampsInRadius db geocode within zipcode distance =
      .ok ⟨200, .obj
        [("success", .bool true),
         ("count", .num (db.filter (fun b =>
            within (loc.longitude, loc.latitude) (distance / 6963) (b.lng, b.lat))).length),
         ("data", .arr ((db.filter (fun b =>
            within (loc.longitude, loc.latitude) (distance / 6963) (b.lng, b.lat))).map
              bootcampJson))]⟩ := by
  simp only [getBootcampsInRadius, hgeo]

/-- C9 witness: one stored bootcamp, a geocoder hit, and the constantly-true
containment test give a 200 body with count 1 and the one-element list. -/
theorem c9_radius_search_witness :
    getBootcampsInRadius [⟨"b1", "u1", 1, 2, "p"⟩] (fun _ => [⟨3, 4⟩])
        (fun _ _ _ => true) "90210" 10 =
      .ok ⟨200, .obj
        [("success", .bool true),
         ("count", .num 1),
         ("data", .arr [bootcampJson ⟨"b1", "u1", 1, 2, "p"⟩])]⟩ :=
  (c9_radius_search [⟨"b1", "u1", 1, 2, "p"⟩] (fun _ => [⟨3, 4⟩]) (fun _ _ _ => true)
    "90210" 10 ⟨3, 4⟩ [] rfl).trans rfl
